import Mathlib

/-
Verification of the trainer script `trainer/task.py` of this repository:
a shallow embedding of its argument handling and of the run of
`train_and_evaluate`, where the external framework calls (dataset download,
fit, evaluate, summary writing, model export) are recorded as events of a
trace, and `sys.exit` / unhandled Python exceptions are recorded as the
outcome of the run.
-/

set_option autoImplicit false
set_option maxHeartbeats 1000000
set_option maxRecDepth 4000

namespace Trainer

/-- A numpy ndarray, modelled as a shape together with the flat list of its
values (row-major), values taken in ℚ. -/
structure NDArray where
  shape : List Nat
  data : List ℚ
deriving DecidableEq, Repr

/-- Elementwise division of an array by a scalar, the numpy broadcast of
`x / c` (line 38 uses `x / 255.0`). -/
def divScalar (a : NDArray) (c : ℚ) : NDArray :=
  { shape := a.shape, data := a.data.map (fun v => v / c) }

/-- numpy `x.reshape(-1, 28, 28, 1)` (line 40): the leading dimension is
inferred, so the call succeeds exactly when the element count is divisible
by 28 * 28 * 1; otherwise numpy raises ValueError, modelled as `none`. -/
def reshape_m1_28_28_1 (a : NDArray) : Option NDArray :=
  if a.data.length % 784 = 0 then
    some { shape := [a.data.length / 784, 28, 28, 1], data := a.data }
  else none

/-- The width `np.max(y) + 1` that `keras.utils.to_categorical` uses when its
`num_classes` argument is left at its default, as in line 41. -/
def numClasses (y : List Nat) : Nat :=
  y.foldl Nat.max 0 + 1

/-- `keras.utils.to_categorical(y)` with the default `num_classes=None`
(line 41): the width is `np.max(y) + 1` and row `i` is the one-hot vector of
`y[i]`.  On an empty label vector `np.max` raises, modelled as `none`. -/
def to_categorical (y : List Nat) : Option (List (List ℚ)) :=
  match y with
  | [] => none
  | _ :: _ =>
    some (y.map (fun label =>
      (List.range (numClasses y)).map (fun j => if j = label then (1 : ℚ) else 0)))

/-- Lines 36-42: `_preprocess_data(x, y, needs_reshape)` divides `x` by 255,
reshapes it to `(-1, 28, 28, 1)` when `needs_reshape`, and one-hot encodes
`y`; `none` models the call raising (incompatible reshape or empty `y`). -/
def _preprocess_data (x : NDArray) (y : List Nat) (needs_reshape : Bool) :
    Option (NDArray × List (List ℚ)) :=
  let x1 := divScalar x 255
  match (if needs_reshape then reshape_m1_28_28_1 x1 else some x1) with
  | none => none
  | some x2 =>
    match to_categorical y with
    | none => none
    | some ys => some (x2, ys)

/-- Keras activation functions used by the two builders. -/
inductive Activation
  | relu
  | softmax
deriving DecidableEq, Repr

/-- The keras layer constructors that the two builders add, with the
hyperparameters written in the source. -/
inductive Layer
  | input (shape : List Nat) (name : String)
  | flatten
  | dense (units : Nat) (activation : Activation)
  | conv2d (filters : Nat) (kernelH kernelW : Nat) (activation : Activation)
  | maxPooling2d (poolH poolW : Nat)
deriving DecidableEq, Repr

/-- Lines 45-55: `_build_model_dense`, the literal layer stack added to the
Sequential model. -/
def _build_model_dense : List Layer :=
  [ Layer.input [28, 28] "my_input_layer",
    Layer.flatten,
    Layer.dense 128 Activation.relu,
    Layer.dense 64 Activation.relu,
    Layer.dense 32 Activation.relu,
    Layer.dense 10 Activation.softmax ]

/-- Lines 58-71: `_build_model_cnn`, the literal layer stack added to the
Sequential model. -/
def _build_model_cnn : List Layer :=
  [ Layer.input [28, 28, 1] "my_input_layer",
    Layer.conv2d 32 3 3 Activation.relu,
    Layer.maxPooling2d 2 2,
    Layer.conv2d 16 3 3 Activation.relu,
    Layer.maxPooling2d 2 2,
    Layer.conv2d 8 3 3 Activation.relu,
    Layer.maxPooling2d 2 2,
    Layer.flatten,
    Layer.dense 10 Activation.softmax ]

/-- Lines 79-89: the model-selection branch of `train_and_evaluate`. It
initialises `needs_reshape = False`, picks the dense builder for `'dense'`
(keeping `False`), the cnn builder with `True` for `'cnn'`, and for any other
string falls into the error branch, modelled as `none`. -/
def selectModel (model_type : String) : Option (List Layer × Bool) :=
  if model_type = "dense" then some (_build_model_dense, false)
  else if model_type = "cnn" then some (_build_model_cnn, true)
  else none

/-- posix `os.path.join(a, b)` on two strings: `b` absolute replaces `a`,
otherwise a separator is inserted unless `a` is empty or already ends in
one. -/
def pyJoin (a b : String) : String :=
  if b.startsWith "/" then b
  else if a = "" ∨ a.endsWith "/" then a ++ b
  else a ++ "/" ++ b

/-- The observable actions of a run: framework calls and printed messages.
Logging via LOGGER.info is not an artifact and is not recorded; the
LOGGER.error call of the unreachable branch (line 88) is recorded because a
claim is about it. -/
inductive Event
  | downloadData
  | buildModel (stack : List Layer)
  | logError (msg : String)
  | compileModel
  | fitModel (x : NDArray) (y : List (List ℚ)) (epochs batchSize : Option Int)
      (logdir : String)
  | evaluateModel (x : NDArray) (y : List (List ℚ))
  | writeScalarSummary (path tag : String) (value : ℚ) (step : Option Int)
  | saveModel (dir : String)
  | printMsg (msg : String)
deriving DecidableEq, Repr

/-- How a run ends: fell off the end of `main`, called `sys.exit(code)`, or
an unhandled Python exception of the given class was raised. -/
inductive Outcome
  | completed
  | exited (code : Nat)
  | raised (exn : String)
deriving DecidableEq, Repr

/-- A run: the trace of events in order, and how the process ended. -/
structure RunResult where
  events : List Event
  outcome : Outcome
deriving DecidableEq, Repr

/-- The environment a run observes: what `datasets.mnist.load_data()`
returns, the wall-clock timestamp used in the log directory name, what
`model.evaluate` returns, and the package version string
`trainer.__init__.__version__` (its value is not in the sources, so it is an
input here). -/
structure Env where
  x_train : NDArray
  y_train : List Nat
  x_test : NDArray
  y_test : List Nat
  timestamp : String
  evalLoss : ℚ
  evalAccuracy : ℚ
  version : String
deriving DecidableEq, Repr

/-- Lines 74-127: `train_and_evaluate`.  Downloads the data, selects and
builds the model (exiting 1 on an unknown type), preprocesses both splits
(a raise there is ValueError), compiles, computes the TensorBoard log
directory — `os.path.join(job_dir, ...)` raises TypeError when `job_dir` is
None — fits, evaluates, then either writes the hypertune scalar summary or
saves the model to `os.path.join(output_path, VERSION)` (TypeError again if
`output_path` is None there). -/
def train_and_evaluate (env : Env) (batch_size epochs : Option Int)
    (job_dir output_path : Option String) (is_hypertune : Bool)
    (model_type : String) : RunResult :=
  let evs0 : List Event := [Event.downloadData]
  match selectModel model_type with
  | none =>
    { events := evs0 ++ [Event.logError ("Unknown model type " ++ model_type)],
      outcome := Outcome.exited 1 }
  | some (model, needs_reshape) =>
    let evs1 := evs0 ++ [Event.buildModel model]
    match _preprocess_data env.x_train env.y_train needs_reshape with
    | none => { events := evs1, outcome := Outcome.raised "ValueError" }
    | some (xtr, ytr) =>
      match _preprocess_data env.x_test env.y_test needs_reshape with
      | none => { events := evs1, outcome := Outcome.raised "ValueError" }
      | some (xte, yte) =>
        let evs2 := evs1 ++ [Event.compileModel]
        match job_dir with
        | none => { events := evs2, outcome := Outcome.raised "TypeError" }
        | some jd =>
          let logdir := pyJoin jd ("logs/scalars/" ++ env.timestamp)
          let evs3 := evs2 ++
            [Event.fitModel xtr ytr epochs batch_size logdir,
             Event.evaluateModel xte yte]
          let evs4 :=
            if is_hypertune then
              evs3 ++ [Event.writeScalarSummary (pyJoin jd "accuracy_live_class")
                "accuracy_live_class" env.evalAccuracy epochs]
            else evs3
          if is_hypertune then
            { events := evs4, outcome := Outcome.completed }
          else
            match output_path with
            | none => { events := evs4, outcome := Outcome.raised "TypeError" }
            | some op =>
              { events := evs4 ++ [Event.saveModel (pyJoin op env.version)],
                outcome := Outcome.completed }

/-- The parsed command-line arguments (lines 131-146): `--hypertune` is a
store_true flag, `--batch-size` and `--epochs` are ints with no default and
not required, `--job-dir` and `--model-output-path` default to None,
`--model-type` defaults to `'dense'`. -/
structure Args where
  hypertune : Bool
  batch_size : Option Int
  epochs : Option Int
  job_dir : Option String
  model_output_path : Option String
  model_type : String
deriving DecidableEq, Repr

/-- Lines 129-156: `main` after argument parsing.  Validates the model type
and, when not hypertuning, the presence of `--model-output-path`, printing a
message and exiting 1 on failure; otherwise calls `train_and_evaluate`. -/
def main (env : Env) (args : Args) : RunResult :=
  if args.model_type ∉ (["dense", "cnn"] : List String) then
    { events := [Event.printMsg "Model type must be dense or cnn"],
      outcome := Outcome.exited 1 }
  else if args.hypertune = false ∧ args.model_output_path = none then
    { events := [Event.printMsg "Please set --model-output-path"],
      outcome := Outcome.exited 1 }
  else
    train_and_evaluate env args.batch_size args.epochs args.job_dir
      args.model_output_path args.hypertune args.model_type

/-- A concrete environment used by witnesses and counterexamples: a tiny
stand-in for what the framework returns at run time. -/
def envW : Env :=
  { x_train := { shape := [2], data := [0, 255] },
    y_train := [1, 0],
    x_test := { shape := [1], data := [51] },
    y_test := [0],
    timestamp := "20210101-000000",
    evalLoss := 1/4,
    evalAccuracy := 1/2,
    version := "0.1" }

/-- Characterisation of `train_and_evaluate` on the path where the model type
is known, both preprocessing calls succeed and `job_dir` is present: used by
several claim theorems. -/
theorem tae_some_eq (env : Env) (bs ep : Option Int) (jd : String)
    (op : Option String) (hyp : Bool) (mt : String) (model : List Layer)
    (nr : Bool) (xtr : NDArray) (ytr : List (List ℚ)) (xte : NDArray)
    (yte : List (List ℚ))
    (hsel : selectModel mt = some (model, nr))
    (h1 : _preprocess_data env.x_train env.y_train nr = some (xtr, ytr))
    (h2 : _preprocess_data env.x_test env.y_test nr = some (xte, yte)) :
    train_and_evaluate env bs ep (some jd) op hyp mt =
      let base : List Event :=
        [Event.downloadData, Event.buildModel model, Event.compileModel,
         Event.fitModel xtr ytr ep bs (pyJoin jd ("logs/scalars/" ++ env.timestamp)),
         Event.evaluateModel xte yte]
      if hyp then
        { events := base ++ [Event.writeScalarSummary (pyJoin jd "accuracy_live_class")
            "accuracy_live_class" env.evalAccuracy ep],
          outcome := Outcome.completed }
      else
        match op with
        | none => { events := base, outcome := Outcome.raised "TypeError" }
        | some o =>
          { events := base ++ [Event.saveModel (pyJoin o env.version)],
            outcome := Outcome.completed } := by
  cases hyp <;> cases op <;>
    simp [train_and_evaluate, hsel, h1, h2]

/-- C1: for every invocation of `main` with a `--model-type` value other than
`'dense'` or `'cnn'`, the process prints a message and terminates with exit
code 1. -/
theorem main_invalid_model_type_exits (env : Env) (args : Args)
    (h : args.model_type ∉ (["dense", "cnn"] : List String)) :
    main env args =
      { events := [Event.printMsg "Model type must be dense or cnn"],
        outcome := Outcome.exited 1 } := by
  simp [main, h]

/-- A concrete argument vector with model type `'resnet'`, used by the C1
witness. -/
def argsResnet : Args :=
  { hypertune := false, batch_size := none, epochs := none,
    job_dir := none, model_output_path := none, model_type := "resnet" }

/-- Witness for C1 at the concrete model type `'resnet'`. -/
theorem main_invalid_model_type_exits_witness :
    argsResnet.model_type ∉ (["dense", "cnn"] : List String) ∧
    main envW argsResnet =
      { events := [Event.printMsg "Model type must be dense or cnn"],
        outcome := Outcome.exited 1 } :=
  ⟨by decide, main_invalid_model_type_exits envW argsResnet (by decide)⟩

/-- C2: for every invocation of `main` where `--hypertune` is not given and
`--model-output-path` is omitted, the process prints a message and
terminates with exit code 1. -/
theorem main_missing_output_path_exits (env : Env) (args : Args)
    (h1 : args.hypertune = false) (h2 : args.model_output_path = none) :
    (main env args).outcome = Outcome.exited 1 ∧
    ∃ m, (main env args).events = [Event.printMsg m] := by
  by_cases hmt : args.model_type ∈ (["dense", "cnn"] : List String)
  · simp [main, hmt, h1, h2]
  · simp [main, hmt]

/-- A concrete non-hypertune argument vector without an output path, used by
the C2 witness. -/
def argsNoOut : Args :=
  { hypertune := false, batch_size := none, epochs := none,
    job_dir := none, model_output_path := none, model_type := "dense" }

/-- Witness for C2 at a concrete argument vector. -/
theorem main_missing_output_path_exits_witness :
    argsNoOut.hypertune = false ∧ argsNoOut.model_output_path = none ∧
    (main envW argsNoOut).outcome = Outcome.exited 1 ∧
    ∃ m, (main envW argsNoOut).events = [Event.printMsg m] :=
  ⟨rfl, rfl,
    (main_missing_output_path_exits envW argsNoOut rfl rfl).1,
    (main_missing_output_path_exits envW argsNoOut rfl rfl).2⟩

/-- C3: on either validation failure (unknown model type, or missing output
path while not hypertuning) `main` exits with code 1 before any work: the
trace holds no download, no model build, no model save and no scalar
summary. -/
theorem main_validation_failure_no_work (env : Env) (args : Args)
    (h : args.model_type ∉ (["dense", "cnn"] : List String) ∨
         (args.hypertune = false ∧ args.model_output_path = none)) :
    (main env args).outcome = Outcome.exited 1 ∧
    Event.downloadData ∉ (main env args).events ∧
    (∀ m, Event.buildModel m ∉ (main env args).events) ∧
    (∀ d, Event.saveModel d ∉ (main env args).events) ∧
    (∀ p t v s, Event.writeScalarSummary p t v s ∉ (main env args).events) := by
  rcases h with h | ⟨h1, h2⟩
  · simp [main, h]
  · by_cases hmt : args.model_type ∈ (["dense", "cnn"] : List String)
    · simp [main, hmt, h1, h2]
    · simp [main, hmt]

/-- A concrete argument vector with an unknown model type, used by the C3
witness. -/
def argsGru : Args :=
  { hypertune := false, batch_size := none, epochs := none,
    job_dir := none, model_output_path := none, model_type := "gru" }

/-- Witness for C3 at a concrete argument vector failing the first
validation. -/
theorem main_validation_failure_no_work_witness :
    (argsGru.model_type ∉ (["dense", "cnn"] : List String) ∨
      (argsGru.hypertune = false ∧ argsGru.model_output_path = none)) ∧
    (main envW argsGru).outcome = Outcome.exited 1 ∧
    Event.downloadData ∉ (main envW argsGru).events :=
  ⟨Or.inl (by decide),
    (main_validation_failure_no_work envW argsGru (Or.inl (by decide))).1,
    (main_validation_failure_no_work envW argsGru (Or.inl (by decide))).2.1⟩

/-- A hypertune argument vector with `--job-dir` omitted, used for C8: it
passes both validations. -/
def argsNoJob (bs ep : Option Int) : Args :=
  { hypertune := true, batch_size := bs, epochs := ep, job_dir := none,
    model_output_path := none, model_type := "dense" }

/-- C8 (evaluation of the code at the failing input): a run that passes
validation but omits `--job-dir` enters `train_and_evaluate`, downloads the
data, builds and compiles the model, and then raises TypeError when the
None `job_dir` reaches `os.path.join` for the TensorBoard log directory —
it does not proceed without error. -/
theorem job_dir_none_raises (env : Env) (bs ep : Option Int)
    (xtr : NDArray) (ytr : List (List ℚ)) (xte : NDArray) (yte : List (List ℚ))
    (h1 : _preprocess_data env.x_train env.y_train false = some (xtr, ytr))
    (h2 : _preprocess_data env.x_test env.y_test false = some (xte, yte)) :
    main env (argsNoJob bs ep) =
      { events := [Event.downloadData, Event.buildModel _build_model_dense,
                   Event.compileModel],
        outcome := Outcome.raised "TypeError" } := by
  have hm : main env (argsNoJob bs ep) =
      train_and_evaluate env bs ep none none true "dense" := by
    simp [main, argsNoJob]
  rw [hm]
  simp [train_and_evaluate, selectModel, h1, h2]

/-- Witness for C8 on the concrete environment `envW`. -/
theorem job_dir_none_raises_witness :
    _preprocess_data envW.x_train envW.y_train false =
      some ({ shape := [2], data := [0, 1] }, [[0, 1], [1, 0]]) ∧
    main envW (argsNoJob none none) =
      { events := [Event.downloadData, Event.buildModel _build_model_dense,
                   Event.compileModel],
        outcome := Outcome.raised "TypeError" } :=
  ⟨by norm_num [envW, _preprocess_data, divScalar, to_categorical, numClasses,
      List.range_succ],
    job_dir_none_raises envW none none
      { shape := [2], data := [0, 1] } [[0, 1], [1, 0]]
      { shape := [1], data := [1/5] } [[1]]
      (by norm_num [envW, _preprocess_data, divScalar, to_categorical,
        numClasses, List.range_succ])
      (by norm_num [envW, _preprocess_data, divScalar, to_categorical,
        numClasses, List.range_succ])⟩

/-- The unknown-model-type branch of `train_and_evaluate` is the only place
a LOGGER.error event can arise, and it is never taken once the model type
was selected: helper for C9. -/
theorem tae_no_logError (env : Env) (bs ep : Option Int)
    (jd op : Option String) (hyp : Bool) (mt : String)
    (p : List Layer × Bool) (hsel : selectModel mt = some p) (m : String) :
    Event.logError m ∉ (train_and_evaluate env bs ep jd op hyp mt).events := by
  obtain ⟨model, nr⟩ := p
  simp only [train_and_evaluate, hsel]
  rcases h1 : _preprocess_data env.x_train env.y_train nr with _ | ⟨xtr, ytr⟩
  · simp
  · rcases h2 : _preprocess_data env.x_test env.y_test nr with _ | ⟨xte, yte⟩
    · simp
    · rcases jd with _ | jd
      · simp
      · rcases hyp with _ | _
        · rcases op with _ | op <;> simp
        · simp

/-- C9: the unknown-model-type branch inside `train_and_evaluate` (log
error, exit 1) is unreachable from `main`: no run of `main`, whatever its
arguments, ever logs an error. -/
theorem unknown_model_branch_unreachable (env : Env) (args : Args)
    (m : String) :
    Event.logError m ∉ (main env args).events := by
  by_cases hmt : args.model_type ∈ (["dense", "cnn"] : List String)
  · by_cases hv : args.hypertune = false ∧ args.model_output_path = none
    · simp [main, hmt, hv]
    · have hm : main env args =
          train_and_evaluate env args.batch_size args.epochs args.job_dir
            args.model_output_path args.hypertune args.model_type := by
        simp [main, hmt, hv]
      rw [hm]
      have hmt2 : args.model_type = "dense" ∨ args.model_type = "cnn" := by
        simpa using hmt
      rcases hmt2 with h | h
      · exact tae_no_logError env _ _ _ _ _ _ (_build_model_dense, false)
          (by rw [h]; rfl) m
      · exact tae_no_logError env _ _ _ _ _ _ (_build_model_cnn, true)
          (by rw [h]; rfl) m
  · simp [main, hmt]

/-- A hypertune argument vector that omits `--batch-size` and `--epochs`,
used for C10. -/
def argsOmitted (jd : String) (op : Option String) : Args :=
  { hypertune := true, batch_size := none, epochs := none,
    job_dir := some jd, model_output_path := op, model_type := "dense" }

/-- C10: `--batch-size` and `--epochs` are not required and have no
defaults: with both omitted, no validation rejects the run (nothing is
printed and the run completes), `main` passes None for both to
`train_and_evaluate`, which forwards them to `model.fit`, and in hypertune
mode the None epochs also reaches the scalar-summary step. -/
theorem batch_epochs_unvalidated (env : Env) (jd : String) (op : Option String)
    (xtr : NDArray) (ytr : List (List ℚ)) (xte : NDArray) (yte : List (List ℚ))
    (h1 : _preprocess_data env.x_train env.y_train false = some (xtr, ytr))
    (h2 : _preprocess_data env.x_test env.y_test false = some (xte, yte)) :
    (main env (argsOmitted jd op)).outcome = Outcome.completed ∧
    (∀ m, Event.printMsg m ∉ (main env (argsOmitted jd op)).events) ∧
    Event.fitModel xtr ytr none none
        (pyJoin jd ("logs/scalars/" ++ env.timestamp))
      ∈ (main env (argsOmitted jd op)).events ∧
    Event.writeScalarSummary (pyJoin jd "accuracy_live_class")
        "accuracy_live_class" env.evalAccuracy none
      ∈ (main env (argsOmitted jd op)).events := by
  have hm : main env (argsOmitted jd op) =
      train_and_evaluate env none none (some jd) op true "dense" := by
    simp [main, argsOmitted]
  rw [hm, tae_some_eq env none none jd op true "dense" _build_model_dense
    false xtr ytr xte yte rfl h1 h2]
  simp

/-- Witness for C10 on the concrete environment `envW`. -/
theorem batch_epochs_unvalidated_witness :
    _preprocess_data envW.x_train envW.y_train false =
      some ({ shape := [2], data := [0, 1] }, [[0, 1], [1, 0]]) ∧
    (main envW (argsOmitted "gs://b/job" none)).outcome = Outcome.completed ∧
    Event.fitModel { shape := [2], data := [0, 1] } [[0, 1], [1, 0]] none none
        (pyJoin "gs://b/job" ("logs/scalars/" ++ envW.timestamp))
      ∈ (main envW (argsOmitted "gs://b/job" none)).events :=
  ⟨by norm_num [envW, _preprocess_data, divScalar, to_categorical, numClasses,
      List.range_succ],
    (batch_epochs_unvalidated envW "gs://b/job" none
      { shape := [2], data := [0, 1] } [[0, 1], [1, 0]]
      { shape := [1], data := [1/5] } [[1]]
      (by norm_num [envW, _preprocess_data, divScalar, to_categorical,
        numClasses, List.range_succ])
      (by norm_num [envW, _preprocess_data, divScalar, to_categorical,
        numClasses, List.range_succ])).1,
    (batch_epochs_unvalidated envW "gs://b/job" none
      { shape := [2], data := [0, 1] } [[0, 1], [1, 0]]
      { shape := [1], data := [1/5] } [[1]]
      (by norm_num [envW, _preprocess_data, divScalar, to_categorical,
        numClasses, List.range_succ])
      (by norm_num [envW, _preprocess_data, divScalar, to_categorical,
        numClasses, List.range_succ])).2.2.1⟩

/-- The accumulator bounds a left fold by `Nat.max`. -/
theorem le_foldl_max (l : List Nat) (acc : Nat) : acc ≤ l.foldl Nat.max acc := by
  induction l generalizing acc with
  | nil => exact Nat.le_refl acc
  | cons a t ih => exact Nat.le_trans (Nat.le_max_left acc a) (ih (Nat.max acc a))

/-- Every member bounds a left fold by `Nat.max`. -/
theorem mem_le_foldl_max (l : List Nat) (acc a : Nat) (h : a ∈ l) :
    a ≤ l.foldl Nat.max acc := by
  induction l generalizing acc with
  | nil => cases h
  | cons b t ih =>
    rcases List.mem_cons.mp h with rfl | h
    · exact Nat.le_trans (Nat.le_max_right acc a) (le_foldl_max t (Nat.max acc a))
    · exact ih (Nat.max acc b) h

/-- Each label is strictly below the `to_categorical` width. -/
theorem getElem_lt_numClasses (y : List Nat) (i : Nat) (hi : i < y.length) :
    y[i] < numClasses y :=
  Nat.lt_succ_of_le (mem_le_foldl_max y 0 _ (List.getElem_mem hi))

/-- Evaluation of `_preprocess_data` without reshape on a nonempty label
vector. -/
theorem preprocess_eq_false (x : NDArray) (a : Nat) (t : List Nat) :
    _preprocess_data x (a :: t) false =
      some (divScalar x 255,
        (a :: t).map (fun label =>
          (List.range (numClasses (a :: t))).map
            (fun j => if j = label then (1 : ℚ) else 0))) := rfl

/-- Evaluation of `_preprocess_data` with reshape on a nonempty label vector
whose pixel count is divisible by 784. -/
theorem preprocess_eq_true (x : NDArray) (a : Nat) (t : List Nat)
    (h : x.data.length % 784 = 0) :
    _preprocess_data x (a :: t) true =
      some ({ shape := [x.data.length / 784, 28, 28, 1],
              data := x.data.map (fun v => v / 255) },
        (a :: t).map (fun label =>
          (List.range (numClasses (a :: t))).map
            (fun j => if j = label then (1 : ℚ) else 0))) := by
  simp [_preprocess_data, reshape_m1_28_28_1, divScalar, to_categorical, h]

/-- C4 amended: `_preprocess_data` returns `x` rescaled into the interval
from 0 to 1 (each value divided by 255), and `y` one-hot encoded with width
equal to the maximum label plus one — not the fixed width 10 — each output
row being a binary vector with exactly one set bit, at the class index; the
width is 10 exactly when the maximum label is 9 (as for the full MNIST
label set). -/
theorem preprocess_rescale_onehot (x : NDArray) (y : List Nat) (nr : Bool)
    (hx : ∀ p ∈ x.data, 0 ≤ p ∧ p ≤ 255)
    (hy : y ≠ [])
    (hr : nr = true → x.data.length % 784 = 0) :
    ∃ x2 ys, _preprocess_data x y nr = some (x2, ys) ∧
      x2.data = x.data.map (fun v => v / 255) ∧
      (∀ q ∈ x2.data, 0 ≤ q ∧ q ≤ 1) ∧
      ys.length = y.length ∧
      (∀ row ∈ ys, row.length = numClasses y) ∧
      (∀ (i j : Nat) (hi : i < y.length) (hiy : i < ys.length)
        (hj : j < ys[i].length), ys[i][j] = if j = y[i] then (1 : ℚ) else 0) ∧
      (∀ (i : Nat) (hi : i < y.length), y[i] < numClasses y) ∧
      (numClasses y = 10 ↔ y.foldl Nat.max 0 = 9) := by
  obtain ⟨a, t, rfl⟩ : ∃ a t, y = a :: t := by
    cases y with
    | nil => exact absurd rfl hy
    | cons a t => exact ⟨a, t, rfl⟩
  have hrange : ∀ q ∈ x.data.map (fun v => v / 255), 0 ≤ q ∧ q ≤ 1 := by
    intro q hq
    rcases List.mem_map.mp hq with ⟨p, hp, rfl⟩
    refine ⟨div_nonneg (hx p hp).1 (by norm_num), ?_⟩
    exact (div_le_one (by norm_num : (0 : ℚ) < 255)).mpr (hx p hp).2
  have hys : ∀ row ∈ (a :: t).map (fun label =>
      (List.range (numClasses (a :: t))).map
        (fun j => if j = label then (1 : ℚ) else 0)),
      row.length = numClasses (a :: t) := by
    intro row hrow
    rcases List.mem_map.mp hrow with ⟨lab, _, rfl⟩
    simp
  have hentry : ∀ (i j : Nat) (hi : i < (a :: t).length)
      (hiy : i < ((a :: t).map (fun label =>
        (List.range (numClasses (a :: t))).map
          (fun j => if j = label then (1 : ℚ) else 0))).length)
      (hj : j < (((a :: t).map (fun label =>
        (List.range (numClasses (a :: t))).map
          (fun j => if j = label then (1 : ℚ) else 0)))[i]).length),
      (((a :: t).map (fun label =>
        (List.range (numClasses (a :: t))).map
          (fun j => if j = label then (1 : ℚ) else 0)))[i])[j] =
        if j = (a :: t)[i] then (1 : ℚ) else 0 := by
    intro i j hi hiy hj
    simp only [List.getElem_map] at hj ⊢
    simp only [List.getElem_range]
  cases nr with
  | false =>
    refine ⟨divScalar x 255, _, preprocess_eq_false x a t, rfl, hrange, by simp,
      hys, hentry, fun i hi => getElem_lt_numClasses (a :: t) i hi, by
        simp only [numClasses]; omega⟩
  | true =>
    refine ⟨_, _, preprocess_eq_true x a t (hr rfl), rfl, hrange, by simp,
      hys, hentry, fun i hi => getElem_lt_numClasses (a :: t) i hi, by
        simp only [numClasses]; omega⟩

/-- Witness for the amended C4 at a concrete two-pixel image and the label
vector with labels 1 and 0: the one-hot width is 2. -/
theorem preprocess_rescale_onehot_witness :
    (∀ p ∈ ({ shape := [2], data := [0, 255] } : NDArray).data,
      0 ≤ p ∧ p ≤ 255) ∧
    ∃ x2 ys,
      _preprocess_data { shape := [2], data := [0, 255] } [1, 0] false =
        some (x2, ys) ∧
      x2.data = ({ shape := [2], data := [0, 255] } : NDArray).data.map
        (fun v => v / 255) ∧
      (∀ q ∈ x2.data, 0 ≤ q ∧ q ≤ 1) ∧
      ys.length = ([1, 0] : List Nat).length ∧
      (∀ row ∈ ys, row.length = numClasses [1, 0]) :=
  ⟨by norm_num,
    match preprocess_rescale_onehot { shape := [2], data := [0, 255] } [1, 0]
      false (by norm_num) (by simp) (by simp) with
    | ⟨x2, ys, h1, h2, h3, h4, h5, _⟩ => ⟨x2, ys, h1, h2, h3, h4, h5⟩⟩

/-- C4 counterexample: on the label vector `[0]` the one-hot output of
`_preprocess_data` has width 1, not 10, refuting the fixed width of the
claim. -/
theorem preprocess_width_counterexample :
    (∀ p ∈ ({ shape := [1], data := [0] } : NDArray).data, 0 ≤ p ∧ p ≤ 255) ∧
    _preprocess_data { shape := [1], data := [0] } [0] false =
      some ({ shape := [1], data := [0] }, [[1]]) ∧
    ¬ ∃ x2 ys, _preprocess_data { shape := [1], data := [0] } [0] false =
        some (x2, ys) ∧ ∀ row ∈ ys, row.length = 10 := by
  have heval : _preprocess_data { shape := [1], data := [0] } [0] false =
      some ({ shape := [1], data := [0] }, [[1]]) := by
    norm_num [_preprocess_data, divScalar, to_categorical, numClasses,
      List.range_succ]
  refine ⟨by norm_num, heval, ?_⟩
  rintro ⟨x2, ys, heq, hrow⟩
  rw [heval] at heq
  simp only [Option.some.injEq, Prod.mk.injEq] at heq
  obtain ⟨-, hys⟩ := heq
  have h1 : ([1] : List ℚ) ∈ ys := by rw [← hys]; simp
  have := hrow [1] h1
  simp at this

/-- C5: the two builders are fixed stacks whose final layer has 10 output
classes; the dense stack opens on input shape (28, 28) and is selected with
`needs_reshape` False, the cnn stack opens on input shape (28, 28, 1) and is
selected with `needs_reshape` True, under which `_preprocess_data` reshapes
`x` to (-1, 28, 28, 1). -/
theorem model_builders_spec :
    _build_model_dense.length = 6 ∧
    _build_model_dense.head? = some (Layer.input [28, 28] "my_input_layer") ∧
    _build_model_dense.getLast? = some (Layer.dense 10 Activation.softmax) ∧
    _build_model_cnn.length = 9 ∧
    _build_model_cnn.head? = some (Layer.input [28, 28, 1] "my_input_layer") ∧
    _build_model_cnn.getLast? = some (Layer.dense 10 Activation.softmax) ∧
    selectModel "dense" = some (_build_model_dense, false) ∧
    selectModel "cnn" = some (_build_model_cnn, true) ∧
    (∀ (x : NDArray) (y : List Nat), x.data.length % 784 = 0 → y ≠ [] →
      ∃ x2 ys, _preprocess_data x y true = some (x2, ys) ∧
        x2.shape = [x.data.length / 784, 28, 28, 1]) := by
  refine ⟨rfl, rfl, by decide, rfl, rfl, by decide, by decide, by decide, ?_⟩
  intro x y h784 hy
  obtain ⟨a, t, rfl⟩ : ∃ a t, y = a :: t := by
    cases y with
    | nil => exact absurd rfl hy
    | cons a t => exact ⟨a, t, rfl⟩
  exact ⟨_, _, preprocess_eq_true x a t h784, rfl⟩

/-- Witness for C5 at a concrete 784-pixel image and the label vector [5]:
the reshape yields shape (1, 28, 28, 1). -/
theorem model_builders_spec_witness :
    ∃ x2 ys,
      _preprocess_data { shape := [1, 28, 28], data := List.replicate 784 0 }
        [5] true = some (x2, ys) ∧
      x2.shape = [(List.replicate 784 (0 : ℚ)).length / 784, 28, 28, 1] :=
  model_builders_spec.2.2.2.2.2.2.2.2
    { shape := [1, 28, 28], data := List.replicate 784 0 } [5]
    (by simp) (by simp)

/-- C7 amended: preprocessing is applied to the downloaded train and test
splits, and the arrays passed to `model.fit` and `model.evaluate` are
exactly the preprocessed versions of those downloaded partitions — no data
is discarded. -/
theorem fit_uses_preprocessed_splits (env : Env) (bs ep : Option Int)
    (jd : String) (op : Option String) (hyp : Bool) (mt : String)
    (model : List Layer) (nr : Bool)
    (hsel : selectModel mt = some (model, nr))
    (xtr : NDArray) (ytr : List (List ℚ)) (xte : NDArray) (yte : List (List ℚ))
    (h1 : _preprocess_data env.x_train env.y_train nr = some (xtr, ytr))
    (h2 : _preprocess_data env.x_test env.y_test nr = some (xte, yte)) :
    Event.fitModel xtr ytr ep bs (pyJoin jd ("logs/scalars/" ++ env.timestamp))
      ∈ (train_and_evaluate env bs ep (some jd) op hyp mt).events ∧
    Event.evaluateModel xte yte
      ∈ (train_and_evaluate env bs ep (some jd) op hyp mt).events := by
  rw [tae_some_eq env bs ep jd op hyp mt model nr xtr ytr xte yte hsel h1 h2]
  cases hyp
  · cases op <;> simp
  · simp

/-- Witness for the amended C7 on the concrete environment `envW`. -/
theorem fit_uses_preprocessed_splits_witness :
    Event.fitModel { shape := [2], data := [0, 1] } [[0, 1], [1, 0]] none none
        (pyJoin "jd" ("logs/scalars/" ++ envW.timestamp))
      ∈ (train_and_evaluate envW none none (some "jd") none true
          "dense").events :=
  (fit_uses_preprocessed_splits envW none none "jd" none true "dense"
    _build_model_dense false (by decide)
    { shape := [2], data := [0, 1] } [[0, 1], [1, 0]]
    { shape := [1], data := [1/5] } [[1]]
    (by norm_num [envW, _preprocess_data, divScalar, to_categorical,
      numClasses, List.range_succ])
    (by norm_num [envW, _preprocess_data, divScalar, to_categorical,
      numClasses, List.range_succ])).1

/-- A hypertune argument vector used by the C7 counterexample. -/
def argsJd : Args :=
  { hypertune := true, batch_size := none, epochs := none,
    job_dir := some "jd", model_output_path := none, model_type := "dense" }

/-- C7 counterexample: on a concrete run of `main`, the array pair passed to
`model.fit` is precisely the preprocessed version of the downloaded train
partition, refuting the claim that the fitted arrays are not the
preprocessed downloaded splits. -/
theorem fit_receives_downloaded_counterexample :
    ∃ xtr ytr,
      _preprocess_data envW.x_train envW.y_train false = some (xtr, ytr) ∧
      ∃ l, Event.fitModel xtr ytr none none l ∈ (main envW argsJd).events := by
  refine ⟨{ shape := [2], data := [0, 1] }, [[0, 1], [1, 0]],
    by norm_num [envW, _preprocess_data, divScalar, to_categorical,
      numClasses, List.range_succ],
    pyJoin "jd" ("logs/scalars/" ++ envW.timestamp), ?_⟩
  have hm : main envW argsJd =
      train_and_evaluate envW none none (some "jd") none true "dense" := by
    simp [main, argsJd]
  rw [hm, tae_some_eq envW none none "jd" none true "dense" _build_model_dense
    false { shape := [2], data := [0, 1] } [[0, 1], [1, 0]]
    { shape := [1], data := [1/5] } [[1]] (by decide)
    (by norm_num [envW, _preprocess_data, divScalar, to_categorical,
      numClasses, List.range_succ])
    (by norm_num [envW, _preprocess_data, divScalar, to_categorical,
      numClasses, List.range_succ])]
  simp

/-- The two result artifacts a run can produce: a scalar summary event file
or an exported model directory. -/
def isArtifact : Event → Bool
  | Event.writeScalarSummary _ _ _ _ => true
  | Event.saveModel _ => true
  | _ => false

/-- C6: every run of `main` that completes produces exactly one result
artifact, chosen by the hypertune flag: when hypertuning, the single
artifact is a scalar summary under `<job-dir>/accuracy_live_class` with tag
`accuracy_live_class` and step equal to the epochs value, and no model is
exported; otherwise the single artifact is the model export at
`<model-output-path>/<version>`, and no scalar summary is written. -/
theorem run_artifact_exclusive (env : Env) (args : Args)
    (h : (main env args).outcome = Outcome.completed) :
    (args.hypertune = true →
      ∃ jd, args.job_dir = some jd ∧
        (main env args).events.filter isArtifact =
          [Event.writeScalarSummary (pyJoin jd "accuracy_live_class")
            "accuracy_live_class" env.evalAccuracy args.epochs]) ∧
    (args.hypertune = false →
      ∃ op, args.model_output_path = some op ∧
        (main env args).events.filter isArtifact =
          [Event.saveModel (pyJoin op env.version)]) := by
  by_cases hmt : args.model_type ∈ (["dense", "cnn"] : List String)
  · by_cases hv : args.hypertune = false ∧ args.model_output_path = none
    · exfalso
      simp [main, hmt, hv] at h
    · have hm : main env args =
          train_and_evaluate env args.batch_size args.epochs args.job_dir
            args.model_output_path args.hypertune args.model_type := by
        simp [main, hmt, hv]
      rw [hm] at h ⊢
      obtain ⟨model, nr, hsel⟩ :
          ∃ model nr, selectModel args.model_type = some (model, nr) := by
        have hmt2 : args.model_type = "dense" ∨ args.model_type = "cnn" := by
          simpa using hmt
        rcases hmt2 with hd | hd <;> rw [hd]
        · exact ⟨_build_model_dense, false, rfl⟩
        · exact ⟨_build_model_cnn, true, rfl⟩
      simp only [train_and_evaluate, hsel] at h ⊢
      rcases h1 : _preprocess_data env.x_train env.y_train nr
        with _ | ⟨xtr, ytr⟩
      · rw [h1] at h
        simp at h
      rcases h2 : _preprocess_data env.x_test env.y_test nr
        with _ | ⟨xte, yte⟩
      · rw [h1, h2] at h
        simp at h
      rcases hjd : args.job_dir with _ | jd
      · rw [h1, h2, hjd] at h
        simp at h
      cases hb : args.hypertune with
      | true => simp [isArtifact]
      | false =>
        rcases hop : args.model_output_path with _ | op
        · exact absurd ⟨hb, hop⟩ hv
        · simp [isArtifact]
  · exfalso
    simp [main, hmt] at h

/-- Helper: the run of `main` on `envW` with the hypertune argument vector
`argsJd` evaluates to a completed run with an explicit trace. -/
theorem main_envW_argsJd_eq :
    main envW argsJd =
      { events := [Event.downloadData, Event.buildModel _build_model_dense,
          Event.compileModel,
          Event.fitModel { shape := [2], data := [0, 1] } [[0, 1], [1, 0]]
            none none (pyJoin "jd" ("logs/scalars/" ++ envW.timestamp)),
          Event.evaluateModel { shape := [1], data := [1/5] } [[1]],
          Event.writeScalarSummary (pyJoin "jd" "accuracy_live_class")
            "accuracy_live_class" envW.evalAccuracy none],
        outcome := Outcome.completed } := by
  have hm : main envW argsJd =
      train_and_evaluate envW none none (some "jd") none true "dense" := by
    simp [main, argsJd]
  rw [hm, tae_some_eq envW none none "jd" none true "dense" _build_model_dense
    false { shape := [2], data := [0, 1] } [[0, 1], [1, 0]]
    { shape := [1], data := [1/5] } [[1]] (by decide)
    (by norm_num [envW, _preprocess_data, divScalar, to_categorical,
      numClasses, List.range_succ])
    (by norm_num [envW, _preprocess_data, divScalar, to_categorical,
      numClasses, List.range_succ])]
  simp [argsJd]

/-- Witness for C6 on the concrete completed hypertune run of `argsJd`. -/
theorem run_artifact_exclusive_witness :
    (main envW argsJd).outcome = Outcome.completed ∧
    ((argsJd.hypertune = true →
      ∃ jd, argsJd.job_dir = some jd ∧
        (main envW argsJd).events.filter isArtifact =
          [Event.writeScalarSummary (pyJoin jd "accuracy_live_class")
            "accuracy_live_class" envW.evalAccuracy argsJd.epochs]) ∧
    (argsJd.hypertune = false →
      ∃ op, argsJd.model_output_path = some op ∧
        (main envW argsJd).events.filter isArtifact =
          [Event.saveModel (pyJoin op envW.version)])) :=
  ⟨by rw [main_envW_argsJd_eq],
    run_artifact_exclusive envW argsJd (by rw [main_envW_argsJd_eq])⟩

end Trainer
